import Mathlib

/-!
Shallow embedding of the message relevance filtering and delivery pipeline of
the TelegramSearchAgent repository (src/ai.py, src/channel_store.py,
src/query_store.py, src/monitor.py), together with theorems settling the
specification claims about it.

Python strings are modelled by Lean `String` values; the Python string
methods the code uses (`strip`, `upper`, `startswith`, `replace`) are
embedded as functions over the underlying character list, matching Python's
view of a string as a sequence of code points.  Python values that may be
`None` are modelled with `Option`; an object attribute that may be missing
(`hasattr` false) is one more `Option` layer.  The file-backed JSON stores
are modelled by the states the code distinguishes (missing file, unreadable
or invalid JSON, valid JSON without the expected key, valid JSON with it).
External effects (the LLM call, the HTTP delivery, the transport forward)
are modelled by explicit outcome parameters.
-/

/-- Python truthiness of a string: the empty string is falsy. -/
def pyStrTruthy (s : String) : Bool := !s.data.isEmpty

/-- Python truthiness of an optional string: `None` and `""` are falsy. -/
def pyTruthy : Option String → Bool
  | none => false
  | some s => pyStrTruthy s

/-- Python `a or b` for optional strings: `a` when truthy, else `b`. -/
def pyOr (a b : Option String) : Option String :=
  if pyTruthy a then a else b

/-- Python `str.strip()`: leading and trailing whitespace removed. -/
def pyStrip (s : String) : String :=
  ⟨((s.data.dropWhile Char.isWhitespace).reverse.dropWhile Char.isWhitespace).reverse⟩

/-- Python `str.upper()` (ASCII case mapping). -/
def pyUpper (s : String) : String :=
  ⟨s.data.map Char.toUpper⟩

/-- Python `s.startswith(p)`. -/
def pyStartswith (s p : String) : Bool :=
  p.data.isPrefixOf s.data

/-- Outcome of the external LLM invocation inside the `try` block of
`MistralAIProcessor.is_message_relevant` (src/ai.py): either the response's
content rendered as text, or an exception carrying an error message. -/
inductive OracleOutcome where
  | response (text : String)
  | failure (err : String)
deriving DecidableEq

/-- The `enabled` flag after `MistralAIProcessor.__init__` (src/ai.py lines
28-39): false when LangChain is unavailable, false when neither the
`api_key` argument nor the `MISTRAL_API_KEY` environment value is a truthy
string, and otherwise true unless constructing the model raised. -/
def mistral_init_enabled (langchain_available : Bool)
    (api_key env_key : Option String) (init_ok : Bool) : Bool :=
  if !langchain_available then false
  else if !pyTruthy (pyOr api_key env_key) then false
  else init_ok

/-- `MistralAIProcessor.is_message_relevant` (src/ai.py lines 87-113), with
the LLM interaction abstracted into an `OracleOutcome`.  Returns the boolean
verdict together with the number of outbound service calls made. -/
def is_message_relevant (enabled : Bool) (outcome : OracleOutcome) : Bool × Nat :=
  if !enabled then (true, 0)
  else
    match outcome with
    | OracleOutcome.response text =>
      let response_text := pyUpper (pyStrip text)
      if pyStartswith response_text "NOT RELEVANT" then (false, 1)
      else if pyStartswith response_text "RELEVANT" then (true, 1)
      else (true, 1)
    | OracleOutcome.failure _ => (true, 1)

/-- Observable states of the `monitored_channels.json` file, as
`_load_channels` (src/channel_store.py) distinguishes them. -/
inductive ChannelFileState where
  | missing
  | unreadable
  | noChannelsKey
  | withChannels (channels : List String)
deriving DecidableEq

/-- `_get_default_channels` (src/channel_store.py lines 28-30). -/
def _get_default_channels : List String := ["TestsTal"]

/-- `_load_channels` (src/channel_store.py lines 8-17): the stored list as a
set when the file exists, parses and has a `channels` key; the default set in
every other case. -/
def _load_channels : ChannelFileState → Finset String
  | ChannelFileState.withChannels cs => cs.toFinset
  | _ => _get_default_channels.toFinset

/-- `_save_channels` (src/channel_store.py lines 19-26) with the write
succeeding: the file afterwards holds the sorted channel list. -/
def _save_channels (channels : Finset String) : ChannelFileState :=
  ChannelFileState.withChannels (channels.sort (· ≤ ·))

/-- `get_monitored_channels` (src/channel_store.py lines 32-35). -/
def get_monitored_channels (st : ChannelFileState) : List String :=
  (_load_channels st).sort (· ≤ ·)

/-- `add_channel` (src/channel_store.py lines 37-43): the returned flag and
the file state afterwards (file writes assumed to succeed). -/
def add_channel (st : ChannelFileState) (channel : String) : Bool × ChannelFileState :=
  let channels := _load_channels st
  if channel ∈ channels then (false, st)
  else (true, _save_channels (insert channel channels))

/-- `remove_channel` (src/channel_store.py lines 45-52): the returned flag
and the file state afterwards (file writes assumed to succeed). -/
def remove_channel (st : ChannelFileState) (channel : String) : Bool × ChannelFileState :=
  let channels := _load_channels st
  if channel ∈ channels then (true, _save_channels (channels.erase channel))
  else (false, st)

/-- Observable states of the `user_query.json` file, as `get_current_query`
(src/query_store.py) distinguishes them. -/
inductive QueryFileState where
  | missing
  | unreadable
  | noQueryKey
  | withQuery (query : String)
deriving DecidableEq

/-- `get_default_query` (src/query_store.py lines 28-30). -/
def get_default_query : String := "Find all messages that have words on it."

/-- `get_current_query` (src/query_store.py lines 8-17). -/
def get_current_query : QueryFileState → String
  | QueryFileState.withQuery q => q
  | _ => get_default_query

/-- A transport chat object as the monitor probes it (src/monitor.py): each
attribute may be absent (`hasattr` false, outer `none`) or present with a
possibly-`None` value (inner `Option`). -/
structure Chat where
  title : Option (Option String)
  username : Option (Option String)
  id : Option Int
deriving DecidableEq

/-- An inbound event's message: its text (`None` for non-text content) and
its numeric id. -/
structure Message where
  text : Option String
  id : Nat
deriving DecidableEq

/-- The line `chat_name = getattr(chat, "title", getattr(chat, "username",
"Unknown"))` (src/monitor.py line 312): a present attribute wins even when
its value is `None`, so the result is an optional string. -/
def resolve_chat_name (chat : Chat) : Option String :=
  match chat.title with
  | some v => v
  | none =>
    match chat.username with
    | some v => v
    | none => some "Unknown"

/-- Python `.replace("-100", "")` (src/monitor.py line 133) specialised to
its constant arguments: every occurrence of `-100`, scanning left to right
without overlap, is removed. -/
def pyReplaceMinus100 : List Char → List Char
  | [] => []
  | '-' :: '1' :: '0' :: '0' :: rest => pyReplaceMinus100 rest
  | c :: rest => c :: pyReplaceMinus100 rest

/-- The line `chat_id_str = str(chat.id).replace('-100', '')`
(src/monitor.py line 133). -/
def chat_id_str (i : Int) : String :=
  ⟨pyReplaceMinus100 (Int.repr i).data⟩

/-- Removal of one leading `-100` prefix: the specification's description of
how the private-channel id string is derived. -/
def stripLeadMinus100 (l : List Char) : List Char :=
  if l.take 4 = ['-', '1', '0', '0'] then l.drop 4 else l

/-- The `elif hasattr(chat, 'id')` branch of the link construction
(src/monitor.py lines 131-134). -/
def private_message_link (chat : Chat) (message_id : Nat) : Option String :=
  match chat.id with
  | some i => some ("https://t.me/c/" ++ chat_id_str i ++ "/" ++ Nat.repr message_id)
  | none => none

/-- Deep-link construction in `send_message_via_bot` (src/monitor.py lines
126-134): a truthy public handle gives the public link, otherwise a present
id gives the private-channel link, otherwise no link. -/
def build_message_link (chat : Chat) (message_id : Nat) : Option String :=
  match chat.username with
  | some (some u) =>
    if pyStrTruthy u then some ("https://t.me/" ++ u ++ "/" ++ Nat.repr message_id)
    else private_message_link chat message_id
  | _ => private_message_link chat message_id

/-- Outcome of the primary Bot API delivery in `send_message_via_bot`
(src/monitor.py lines 106-181): the HTTP status of the `sendMessage` call,
or an exception raised inside the `try` block. -/
inductive PrimaryOutcome where
  | status (code : Nat)
  | failure
deriving DecidableEq

/-- Outcome of the transport's native forward inside
`forward_message_to_self` (src/monitor.py lines 253-263). -/
inductive ForwardOutcome where
  | success
  | failure
deriving DecidableEq

/-- The monitor configuration the dispatcher consumes: `BOT_TOKEN`,
`USER_CHAT_ID` (each possibly unset or empty) and the stored own user
entity. -/
structure DispatchConfig where
  bot_token : Option String
  user_chat_id : Option String
  user_entity : Option Unit
deriving DecidableEq

/-- What a dispatch did: the boolean the code returns, and how many primary
and fallback delivery attempts were made. -/
structure DispatchResult where
  delivered : Bool
  primary_attempts : Nat
  fallback_attempts : Nat
deriving DecidableEq

/-- `forward_message_to_self` (src/monitor.py lines 247-263): false without
a stored user entity, otherwise the outcome of the transport forward. -/
def forward_message_to_self (user_entity : Option Unit) (outcome : ForwardOutcome) : Bool :=
  match user_entity with
  | none => false
  | some _ =>
    match outcome with
    | ForwardOutcome.success => true
    | ForwardOutcome.failure => false

/-- `send_message_via_bot` (src/monitor.py lines 100-181): when the bot
token or the recipient chat id is unset or empty the code falls back to
`forward_message_to_self`; otherwise it makes the primary Bot API call and
returns whether the status was 200, with no fallback on failure. -/
def send_message_via_bot (cfg : DispatchConfig) (primary : PrimaryOutcome)
    (fwd : ForwardOutcome) : DispatchResult :=
  if !pyTruthy cfg.bot_token || !pyTruthy cfg.user_chat_id then
    { delivered := forward_message_to_self cfg.user_entity fwd
      primary_attempts := 0
      fallback_attempts := 1 }
  else
    match primary with
    | PrimaryOutcome.status code =>
      { delivered := code == 200, primary_attempts := 1, fallback_attempts := 0 }
    | PrimaryOutcome.failure =>
      { delivered := false, primary_attempts := 1, fallback_attempts := 0 }

/-- The monitor's state as the message handler sees it: the in-memory
`monitored_channels` set filled by `run_monitor` at startup, the
`user_prompt` string cached in `__init__`, the two durable store files, and
whether the AI processor is enabled. -/
structure MonitorState where
  monitored_channels : List String
  user_prompt : String
  channel_file : ChannelFileState
  query_file : QueryFileState
  ai_enabled : Bool
deriving DecidableEq

/-- Observable behaviour of one `message_handler` invocation: whether the
membership test passed, the (text, query) argument pairs of the oracle calls
made, and whether the dispatcher was invoked. -/
structure HandlerTrace where
  processed : Bool
  oracle_calls : List (String × String)
  dispatched : Bool
deriving DecidableEq

/-- The membership test `chat_name in self.monitored_channels`
(src/monitor.py line 330), against the in-memory set. -/
def handler_member (st : MonitorState) (chat : Chat) : Bool :=
  match resolve_chat_name chat with
  | some n => st.monitored_channels.contains n
  | none => false

/-- The text extraction of the handler (src/monitor.py lines 333-335):
`message.text or ""`, then the sentinel for a falsy result. -/
def substituted_text (message : Message) : String :=
  let text0 :=
    match message.text with
    | some t => t
    | none => ""
  if pyStrTruthy text0 then text0 else "[Non-text content]"

/-- `message_handler` (src/monitor.py lines 308-378): resolve the chat name,
test membership against the in-memory set, substitute the sentinel for empty
or absent text, read the query store fresh, call the oracle, and dispatch on
a relevant verdict. -/
def message_handler (st : MonitorState) (chat : Chat) (message : Message)
    (oracle : OracleOutcome) : HandlerTrace :=
  if handler_member st chat then
    { processed := true
      oracle_calls := [(substituted_text message, get_current_query st.query_file)]
      dispatched := (is_message_relevant st.ai_enabled oracle).1 }
  else
    { processed := false
      oracle_calls := []
      dispatched := false }

/-- Every character produced by `Nat.digitChar` differs from the minus
sign. -/
theorem digitChar_ne_dash (k : Nat) : Nat.digitChar k ≠ '-' := by
  match k with
  | 0 | 1 | 2 | 3 | 4 | 5 | 6 | 7 | 8 | 9 | 10 | 11 | 12 | 13 | 14 | 15 => decide
  | (n + 16) =>
    have h : Nat.digitChar (n + 16) = '*' := rfl
    rw [h]
    decide

/-- The decimal digit accumulator never introduces a minus sign. -/
theorem toDigitsCore_ne_dash (fuel : Nat) :
    ∀ (n : Nat) (acc : List Char), '-' ∉ acc → '-' ∉ Nat.toDigitsCore 10 fuel n acc := by
  induction fuel with
  | zero =>
    intro n acc h
    simpa [Nat.toDigitsCore] using h
  | succ f ih =>
    intro n acc h
    have hd : ('-' : Char) ∉ Nat.digitChar (n % 10) :: acc := by
      intro hm
      rcases List.mem_cons.mp hm with he | hm
      · exact digitChar_ne_dash _ he.symm
      · exact h hm
    simp only [Nat.toDigitsCore]
    split
    · exact hd
    · exact ih _ _ hd

/-- The decimal rendering of a natural number holds no minus sign. -/
theorem natRepr_ne_dash (n : Nat) : '-' ∉ (Nat.repr n).data :=
  toDigitsCore_ne_dash (n + 1) n [] (by simp)

/-- Replacing `-100` in a list without a minus sign changes nothing. -/
theorem pyReplaceMinus100_eq_self : ∀ (l : List Char), '-' ∉ l → pyReplaceMinus100 l = l := by
  intro l
  induction l with
  | nil => intro _; rfl
  | cons c rest ih =>
    intro h
    have hc : c ≠ '-' := by
      intro e
      exact h (by simp [e])
    have hrest : '-' ∉ rest := fun hm => h (List.mem_cons_of_mem _ hm)
    rw [pyReplaceMinus100.eq_def]
    split
    · rename_i heq
      exact absurd heq (by simp)
    · rename_i r heq
      obtain ⟨hc', -⟩ := List.cons.inj heq
      exact absurd hc' hc
    · rename_i c' rest' hno heq
      obtain ⟨hc', hrest'⟩ := List.cons.inj heq
      rw [← hc', ← hrest', ih hrest]

/-- Stripping a leading `-100` from a list without a minus sign changes
nothing. -/
theorem stripLeadMinus100_eq_self (l : List Char) (h : '-' ∉ l) :
    stripLeadMinus100 l = l := by
  unfold stripLeadMinus100
  rw [if_neg]
  intro e
  exact h (List.mem_of_mem_take (n := 4) (by rw [e]; simp))

/-- On a minus sign followed by digits, the replacement removes exactly the
leading `-100` prefix when present. -/
theorem pyReplaceMinus100_dash_cons (ds : List Char) (h : '-' ∉ ds) :
    pyReplaceMinus100 ('-' :: ds) = stripLeadMinus100 ('-' :: ds) := by
  by_cases h3 : ds.take 3 = ['1', '0', '0']
  · have hds : ds = '1' :: '0' :: '0' :: ds.drop 3 := by
      conv_lhs => rw [← List.take_append_drop 3 ds, h3]
      rfl
    have hr : '-' ∉ ds.drop 3 := fun hm => h (List.mem_of_mem_drop hm)
    rw [hds]
    have hrepl : pyReplaceMinus100 ('-' :: '1' :: '0' :: '0' :: ds.drop 3) =
        pyReplaceMinus100 (ds.drop 3) := rfl
    have hstrip : stripLeadMinus100 ('-' :: '1' :: '0' :: '0' :: ds.drop 3) = ds.drop 3 := rfl
    rw [hrepl, hstrip, pyReplaceMinus100_eq_self _ hr]
  · have hcond : ¬ (('-' :: ds).take 4 = ['-', '1', '0', '0']) := by
      intro e
      apply h3
      simpa using e
    have hne : pyReplaceMinus100 ('-' :: ds) = '-' :: pyReplaceMinus100 ds := by
      rw [pyReplaceMinus100.eq_def]
      split
      · rename_i heq
        exact absurd heq (by simp)
      · rename_i r heq
        obtain ⟨-, hds⟩ := List.cons.inj heq
        exact absurd (show List.take 3 ds = ['1', '0', '0'] by rw [hds]; rfl) h3
      · rename_i c' rest' hno heq
        obtain ⟨hc', hrest'⟩ := List.cons.inj heq
        rw [← hc', ← hrest']
    rw [hne, pyReplaceMinus100_eq_self _ h]
    unfold stripLeadMinus100
    rw [if_neg hcond]

/-- On the decimal rendering of an integer, the code's replace-all of `-100`
agrees with the specification's removal of one leading `-100` prefix. -/
theorem pyReplaceMinus100_intRepr (i : Int) :
    pyReplaceMinus100 (Int.repr i).data = stripLeadMinus100 (Int.repr i).data := by
  cases i with
  | ofNat n =>
    have h : '-' ∉ (Int.repr (Int.ofNat n)).data := natRepr_ne_dash n
    rw [pyReplaceMinus100_eq_self _ h, stripLeadMinus100_eq_self _ h]
  | negSucc m =>
    have hd : (Int.repr (Int.negSucc m)).data = '-' :: (Nat.repr (m + 1)).data := rfl
    rw [hd]
    exact pyReplaceMinus100_dash_cons _ (natRepr_ne_dash (m + 1))

/-- C1: after stripping and upper-casing the oracle response, the relevance
evaluation returns false exactly on responses starting with "NOT RELEVANT",
true on responses otherwise starting with "RELEVANT", and true on every
other response; two lower-case instances witness case-insensitivity. -/
theorem relevance_parsing_cases (s : String) :
    (pyStartswith (pyUpper (pyStrip s)) "NOT RELEVANT" = true →
      (is_message_relevant true (OracleOutcome.response s)).1 = false) ∧
    (pyStartswith (pyUpper (pyStrip s)) "NOT RELEVANT" = false →
      pyStartswith (pyUpper (pyStrip s)) "RELEVANT" = true →
      (is_message_relevant true (OracleOutcome.response s)).1 = true) ∧
    (pyStartswith (pyUpper (pyStrip s)) "NOT RELEVANT" = false →
      pyStartswith (pyUpper (pyStrip s)) "RELEVANT" = false →
      (is_message_relevant true (OracleOutcome.response s)).1 = true) ∧
    is_message_relevant true (OracleOutcome.response "  not relevant: spam  ") = (false, 1) ∧
    is_message_relevant true (OracleOutcome.response " relevant to the query") = (true, 1) := by
  refine ⟨?_, ?_, ?_, by decide, by decide⟩
  · intro h1
    simp [is_message_relevant, h1]
  · intro h1 h2
    simp [is_message_relevant, h1, h2]
  · intro h1 h2
    simp [is_message_relevant, h1, h2]

/-- C2: with the oracle disabled because LangChain is unavailable or no API
key is configured, evaluation returns the relevant verdict with zero
outbound calls; an enabled evaluation whose service call raises also returns
the relevant verdict. -/
theorem oracle_fail_open :
    (∀ (api env : Option String) (ok : Bool) (o : OracleOutcome),
      is_message_relevant (mistral_init_enabled false api env ok) o = (true, 0)) ∧
    (∀ (api env : Option String) (ok : Bool) (o : OracleOutcome),
      pyTruthy (pyOr api env) = false →
      is_message_relevant (mistral_init_enabled true api env ok) o = (true, 0)) ∧
    (∀ (e : String), (is_message_relevant true (OracleOutcome.failure e)).1 = true) := by
  refine ⟨?_, ?_, ?_⟩
  · intro api env ok o
    simp [mistral_init_enabled, is_message_relevant]
  · intro api env ok o h
    simp [mistral_init_enabled, is_message_relevant, h]
  · intro e
    rfl

/-- C3 counterexample: a state whose durable Source Registry file contains
"alpha" while the in-memory set is empty; the handler ignores a message from
"alpha", so membership is not decided by re-reading the durable registry at
event time. -/
theorem registry_cached_counterexample :
    "alpha" ∈ _load_channels (ChannelFileState.withChannels ["alpha"]) ∧
    (message_handler
        { monitored_channels := []
          user_prompt := "q"
          channel_file := ChannelFileState.withChannels ["alpha"]
          query_file := QueryFileState.missing
          ai_enabled := false }
        { title := some (some "alpha"), username := none, id := none }
        { text := some "hi", id := 1 }
        (OracleOutcome.response "RELEVANT")).processed = false :=
  ⟨by decide, by decide⟩

/-- C3 (amended): the handler's membership decision is taken against the
in-memory `monitored_channels` set populated at startup: it is invariant
under the contents of the durable registry file, and passes exactly when the
resolved chat name is in the in-memory set. -/
theorem membership_from_startup_cache :
    (∀ (st : MonitorState) (chat : Chat) (message : Message) (o : OracleOutcome)
        (file : ChannelFileState),
      message_handler { st with channel_file := file } chat message o =
        message_handler st chat message o) ∧
    (∀ (st : MonitorState) (chat : Chat) (message : Message) (o : OracleOutcome),
      (message_handler st chat message o).processed = true ↔
        ∃ n, resolve_chat_name chat = some n ∧ n ∈ st.monitored_channels) := by
  constructor
  · intro st chat message o file
    cases st
    rfl
  · intro st chat message o
    cases hn : resolve_chat_name chat with
    | none =>
      simp [message_handler, handler_member, hn]
    | some n =>
      by_cases hm : n ∈ st.monitored_channels
      · simp [message_handler, handler_member, hn, hm]
      · simp [message_handler, handler_member, hn, hm]

/-- C4 counterexample: with the primary channel configured and its HTTP call
returning 500, the dispatch gives up with zero fallback attempts, falsifying
that a failed primary attempt is always followed by exactly one fallback. -/
theorem primary_failure_no_fallback_counterexample :
    (send_message_via_bot
        { bot_token := some "t", user_chat_id := some "c", user_entity := some () }
        (PrimaryOutcome.status 500) ForwardOutcome.success).delivered = false ∧
    (send_message_via_bot
        { bot_token := some "t", user_chat_id := some "c", user_entity := some () }
        (PrimaryOutcome.status 500) ForwardOutcome.success).fallback_attempts = 0 :=
  ⟨by decide, by decide⟩

/-- C4 (amended): the single fallback attempt happens exactly when the
primary channel is not configured (missing or empty bot token or recipient
id); with a configured primary channel the dispatcher makes exactly one
primary attempt, no fallback, and reports delivery exactly on HTTP 200. -/
theorem fallback_only_when_unconfigured :
    (∀ (cfg : DispatchConfig) (p : PrimaryOutcome) (f : ForwardOutcome),
      (!pyTruthy cfg.bot_token || !pyTruthy cfg.user_chat_id) = true →
      send_message_via_bot cfg p f =
        { delivered := forward_message_to_self cfg.user_entity f
          primary_attempts := 0
          fallback_attempts := 1 }) ∧
    (∀ (cfg : DispatchConfig) (p : PrimaryOutcome) (f : ForwardOutcome),
      (!pyTruthy cfg.bot_token || !pyTruthy cfg.user_chat_id) = false →
      (send_message_via_bot cfg p f).primary_attempts = 1 ∧
      (send_message_via_bot cfg p f).fallback_attempts = 0 ∧
      ((send_message_via_bot cfg p f).delivered = true ↔ p = PrimaryOutcome.status 200)) := by
  constructor
  · intro cfg p f h
    simp [send_message_via_bot, h]
  · intro cfg p f h
    cases p with
    | status code =>
      simp [send_message_via_bot, h, beq_iff_eq]
    | failure =>
      simp [send_message_via_bot, h]

/-- C5: the oracle call of the handler uses the query read from the durable
Query Register during the event (every call's query component equals the
event-time `get_current_query`), is invariant under the `user_prompt` value
cached at startup, and a register holding query `q` makes the next evaluated
message use `q`. -/
theorem query_read_fresh_per_event :
    (∀ (st : MonitorState) (p : String) (chat : Chat) (message : Message) (o : OracleOutcome),
      message_handler { st with user_prompt := p } chat message o =
        message_handler st chat message o) ∧
    (∀ (st : MonitorState) (chat : Chat) (message : Message) (o : OracleOutcome)
        (c : String × String),
      c ∈ (message_handler st chat message o).oracle_calls →
      c.2 = get_current_query st.query_file) ∧
    (∀ (st : MonitorState) (q : String) (chat : Chat) (message : Message) (o : OracleOutcome)
        (c : String × String),
      c ∈ (message_handler
            { st with query_file := QueryFileState.withQuery q } chat message o).oracle_calls →
      c.2 = q) := by
  refine ⟨?_, ?_, ?_⟩
  · intro st p chat message o
    cases st
    rfl
  · intro st chat message o c hc
    unfold message_handler at hc
    split at hc
    · simp at hc
      rw [hc]
    · simp at hc
  · intro st q chat message o c hc
    unfold message_handler at hc
    split at hc
    · simp at hc
      rw [hc]
      rfl
    · simp at hc

/-- C6: the deep link is the public `https://t.me/` link with handle and id
for a truthy public handle, and the private `https://t.me/c/` link whose id
is the decimal rendering of the internal id with one leading `-100` prefix
removed when the handle is absent or null; the two concrete instances of the
claim evaluate as stated. -/
theorem deep_link_construction :
    (∀ (t : Option (Option String)) (i : Option Int) (u : String) (m : Nat),
      pyStrTruthy u = true →
      build_message_link { title := t, username := some (some u), id := i } m =
        some ("https://t.me/" ++ u ++ "/" ++ Nat.repr m)) ∧
    (∀ (t : Option (Option String)) (i : Int) (m : Nat),
      build_message_link { title := t, username := none, id := some i } m =
        some ("https://t.me/c/" ++ String.mk (stripLeadMinus100 (Int.repr i).data) ++ "/" ++
          Nat.repr m)) ∧
    (∀ (t : Option (Option String)) (i : Int) (m : Nat),
      build_message_link { title := t, username := some none, id := some i } m =
        some ("https://t.me/c/" ++ String.mk (stripLeadMinus100 (Int.repr i).data) ++ "/" ++
          Nat.repr m)) ∧
    build_message_link { title := none, username := some (some "abc"), id := none } 42 =
      some "https://t.me/abc/42" ∧
    build_message_link { title := none, username := none, id := some (-1001234567890) } 7 =
      some "https://t.me/c/1234567890/7" := by
  refine ⟨?_, ?_, ?_, by decide, by decide⟩
  · intro t i u m h
    simp [build_message_link, h]
  · intro t i m
    simp [build_message_link, private_message_link, chat_id_str, pyReplaceMinus100_intRepr]
  · intro t i m
    simp [build_message_link, private_message_link, chat_id_str, pyReplaceMinus100_intRepr]

/-- C7: from any registry state not containing `x` (writes succeeding),
`add` returns true; a second `add` returns false and leaves the file
unchanged; `remove` then returns true; a second `remove` returns false and
leaves the file unchanged. -/
theorem add_remove_lifecycle (st : ChannelFileState) (x : String)
    (h : x ∉ _load_channels st) :
    (add_channel st x).1 = true ∧
    (add_channel (add_channel st x).2 x).1 = false ∧
    (add_channel (add_channel st x).2 x).2 = (add_channel st x).2 ∧
    (remove_channel (add_channel st x).2 x).1 = true ∧
    (remove_channel (remove_channel (add_channel st x).2 x).2 x).1 = false ∧
    (remove_channel (remove_channel (add_channel st x).2 x).2 x).2 =
      (remove_channel (add_channel st x).2 x).2 := by
  set S := _load_channels st with hS
  set st1 := _save_channels (insert x S) with hst1
  set st2 := _save_channels ((insert x S).erase x) with hst2
  have h1 : add_channel st x = (true, st1) := by
    simp only [add_channel]
    rw [← hS, if_neg h]
  have hload1 : _load_channels st1 = insert x S := by
    rw [hst1]
    show (((insert x S).sort (· ≤ ·)).toFinset) = insert x S
    simp [Finset.sort_toFinset]
  have h2 : add_channel st1 x = (false, st1) := by
    simp only [add_channel]
    rw [hload1, if_pos (Finset.mem_insert_self x S)]
  have h3 : remove_channel st1 x = (true, st2) := by
    simp only [remove_channel]
    rw [hload1, if_pos (Finset.mem_insert_self x S)]
  have hload2 : _load_channels st2 = S := by
    rw [hst2]
    show ((((insert x S).erase x).sort (· ≤ ·)).toFinset) = S
    rw [Finset.erase_insert h]
    simp [Finset.sort_toFinset]
  have h4 : remove_channel st2 x = (false, st2) := by
    simp only [remove_channel]
    rw [hload2, if_neg h]
  refine ⟨?_, ?_, ?_, ?_, ?_, ?_⟩ <;> simp [h1, h2, h3, h4]

/-- C7 witness: the lifecycle at the empty registry file and the name
"x". -/
theorem add_remove_lifecycle_witness :
    (add_channel (ChannelFileState.withChannels []) "x").1 = true ∧
    (add_channel (add_channel (ChannelFileState.withChannels []) "x").2 "x").1 = false ∧
    (add_channel (add_channel (ChannelFileState.withChannels []) "x").2 "x").2 =
      (add_channel (ChannelFileState.withChannels []) "x").2 ∧
    (remove_channel (add_channel (ChannelFileState.withChannels []) "x").2 "x").1 = true ∧
    (remove_channel
      (remove_channel (add_channel (ChannelFileState.withChannels []) "x").2 "x").2 "x").1 =
      false ∧
    (remove_channel
      (remove_channel (add_channel (ChannelFileState.withChannels []) "x").2 "x").2 "x").2 =
      (remove_channel (add_channel (ChannelFileState.withChannels []) "x").2 "x").2 :=
  add_remove_lifecycle (ChannelFileState.withChannels []) "x" (by decide)

/-- C8 counterexample: a chat whose `title` attribute is present with a null
value resolves to `none` (Python `None`), not to a string, falsifying that
resolution always produces a string even for null-valued attributes. -/
theorem resolve_chat_name_null_title_counterexample :
    resolve_chat_name { title := some none, username := some (some "handle"), id := none } =
      none :=
  rfl

/-- C8 (amended): resolution is total (never raises) and follows the
precedence title, then username, then the literal "Unknown"; it yields a
string whenever every present attribute among title and username has a
non-null value. -/
theorem resolve_chat_name_precedence :
    (∀ (v : Option String) (u : Option (Option String)) (i : Option Int),
      resolve_chat_name { title := some v, username := u, id := i } = v) ∧
    (∀ (v : Option String) (i : Option Int),
      resolve_chat_name { title := none, username := some v, id := i } = v) ∧
    (∀ (i : Option Int),
      resolve_chat_name { title := none, username := none, id := i } = some "Unknown") ∧
    (∀ (chat : Chat),
      (∀ v, chat.title = some v → v.isSome = true) →
      (∀ v, chat.username = some v → v.isSome = true) →
      (resolve_chat_name chat).isSome = true) := by
  refine ⟨fun v u i => rfl, fun v i => rfl, fun i => rfl, ?_⟩
  intro chat ht hu
  unfold resolve_chat_name
  cases hct : chat.title with
  | some v => exact ht v hct
  | none =>
    cases hcu : chat.username with
    | some v => exact hu v hcu
    | none => rfl

/-- C9: a message whose text is absent or empty, from a monitored source, is
submitted to the oracle with exactly the sentinel "[Non-text content]" as
its text, paired with the fresh query. -/
theorem sentinel_for_empty_text (st : MonitorState) (chat : Chat) (message : Message)
    (o : OracleOutcome)
    (hmem : (message_handler st chat message o).processed = true)
    (htext : message.text = none ∨ message.text = some "") :
    (message_handler st chat message o).oracle_calls =
      [("[Non-text content]", get_current_query st.query_file)] := by
  by_cases hm : handler_member st chat = true
  · simp [message_handler, hm]
    rcases htext with h | h <;>
      simp [substituted_text, h, show pyStrTruthy "" = false from rfl]
  · simp at hm
    simp [message_handler, hm] at hmem

/-- C9 witness: a concrete monitored event with absent text. -/
theorem sentinel_for_empty_text_witness :
    (message_handler
        { monitored_channels := ["alpha"]
          user_prompt := "q"
          channel_file := ChannelFileState.missing
          query_file := QueryFileState.missing
          ai_enabled := false }
        { title := some (some "alpha"), username := none, id := none }
        { text := none, id := 1 }
        (OracleOutcome.response "RELEVANT")).oracle_calls =
      [("[Non-text content]", get_current_query QueryFileState.missing)] :=
  sentinel_for_empty_text _ _ _ _ (by decide) (Or.inl rfl)

/-- C10: a missing, unreadable or key-less registry file makes every read
(`_load_channels`, and so the list operation and the load step of add and
remove) yield the default set containing exactly "TestsTal". -/
theorem default_channels_on_bad_file :
    _load_channels ChannelFileState.missing = {"TestsTal"} ∧
    _load_channels ChannelFileState.unreadable = {"TestsTal"} ∧
    _load_channels ChannelFileState.noChannelsKey = {"TestsTal"} ∧
    get_monitored_channels ChannelFileState.missing = ["TestsTal"] ∧
    get_monitored_channels ChannelFileState.unreadable = ["TestsTal"] ∧
    get_monitored_channels ChannelFileState.noChannelsKey = ["TestsTal"] := by
  refine ⟨by decide, by decide, by decide, ?_, ?_, ?_⟩
  · unfold get_monitored_channels
    rw [show _load_channels ChannelFileState.missing = ({"TestsTal"} : Finset String) from
      by decide]
    simp [Finset.sort_singleton]
  · unfold get_monitored_channels
    rw [show _load_channels ChannelFileState.unreadable = ({"TestsTal"} : Finset String) from
      by decide]
    simp [Finset.sort_singleton]
  · unfold get_monitored_channels
    rw [show _load_channels ChannelFileState.noChannelsKey = ({"TestsTal"} : Finset String) from
      by decide]
    simp [Finset.sort_singleton]
